import Mathlib

/-!
Verification of the CH340 relay board driver and controller
(`relay_driver.py`, `relay_controller.py`) as a shallow embedding.

The driver owns a serial connection (port name, open flag), a last-send
timestamp, and builds 4-byte command frames.  Time is modelled by the
rationals (seconds); every operation that calls `time.time()` or performs
a serial write receives the current time `now` and the duration `d` of
the write as explicit arguments.  Serial writes are recorded in a list of
frames returned alongside the new state.  Python exceptions are modelled
by `Except RelayError`; an operation returns the state as mutated up to
the raise point.
-/

namespace CH340

/-- Error taxonomy of the driver: `ConnectionError` raised by discovery
failure, by `serial.Serial` open failure, by `_send_command` /
`query_status` when no channel is open, and `ValueError` raised by
`set_relay` on an out-of-range relay number. -/
inductive RelayError where
  | deviceNotFound
  | connectionFailed
  | notConnected
  | invalidArgument
deriving DecidableEq, Repr

deriving instance DecidableEq for Except

/-- A `serial.Serial` object: the port it is bound to and its open flag. -/
structure SerialConn where
  port : String
  isOpen : Bool
deriving DecidableEq, Repr

/-- The mutable attributes of a `RelayDriver` instance:
`self.port`, `self.serial_conn`, `self.last_command_time`. -/
structure DriverState where
  port : Option String
  conn : Option SerialConn
  lastCommandTime : ℚ
deriving DecidableEq, Repr

/-- Source `RelayDriver.__init__` without auto-connect: stores the port,
no serial connection, `last_command_time = 0`. -/
def initDriver (port : Option String) : DriverState :=
  { port := port, conn := none, lastCommandTime := 0 }

/-- Source `START_FLAG = 0xA0`. -/
def START_FLAG : Nat := 0xA0

/-- Source `STATE_OFF = 0x00`. -/
def STATE_OFF : Nat := 0x00

/-- Source `STATE_ON = 0x01`. -/
def STATE_ON : Nat := 0x01

/-- Source `STATUS_QUERY = 0xFF`. -/
def STATUS_QUERY : Nat := 0xFF

/-- Source `COMMAND_DELAY = 0.05` seconds. -/
def COMMAND_DELAY : ℚ := 5 / 100

/-- The truthiness test `self.serial_conn and self.serial_conn.is_open`. -/
def connIsOpen (s : DriverState) : Bool :=
  match s.conn with
  | none => false
  | some c => c.isOpen

/-- Source `RelayDriver._calculate_checksum`:
`(self.START_FLAG + relay_num + state) & 0xFF`. -/
def calculateChecksum (relayNum state : Nat) : Nat :=
  (START_FLAG + relayNum + state) &&& 0xFF

/-- Timing data of one successful `_send_command` call: the instant the
serial write starts (after the enforced sleep) and the instant it
completes (when `last_command_time` is recorded). -/
structure SendOk where
  writeStart : ℚ
  writeComplete : ℚ
deriving DecidableEq, Repr

/-- Source `RelayDriver._send_command`: raises when no open channel; otherwise
sleeps until at least `COMMAND_DELAY` has elapsed since
`last_command_time`, writes the frame (taking `d` seconds), and records
`last_command_time` after the write completes.  `now` is the value of
`time.time()` on entry. -/
def sendCommand (s : DriverState) (command : List Nat) (now d : ℚ) :
    DriverState × List (List Nat) × Except RelayError SendOk :=
  if connIsOpen s then
    let elapsed := now - s.lastCommandTime
    let writeStart :=
      if elapsed < COMMAND_DELAY then now + (COMMAND_DELAY - elapsed) else now
    let writeComplete := writeStart + d
    ({ s with lastCommandTime := writeComplete }, [command],
      .ok { writeStart := writeStart, writeComplete := writeComplete })
  else
    (s, [], .error .notConnected)

/-- The state byte chosen by `set_relay`:
`self.STATE_ON if state else self.STATE_OFF`. -/
def stateByte (st : Bool) : Nat :=
  if st then STATE_ON else STATE_OFF

/-- Source `RelayDriver.set_relay`: validates `1 <= relay_num <= 8` (raising
`ValueError` otherwise), builds the frame
`[START_FLAG, relay_num, state_byte, checksum]` and sends it. -/
def set_relay (s : DriverState) (relayNum : Int) (st : Bool) (now d : ℚ) :
    DriverState × List (List Nat) × Except RelayError SendOk :=
  if 1 ≤ relayNum ∧ relayNum ≤ 8 then
    let sb := stateByte st
    let checksum := calculateChecksum relayNum.toNat sb
    let command := [START_FLAG, relayNum.toNat, sb, checksum]
    sendCommand s command now d
  else
    (s, [], .error .invalidArgument)

/-- Source `RelayDriver.relay_on`: `set_relay(relay_num, True)`. -/
def relay_on (s : DriverState) (relayNum : Int) (now d : ℚ) :
    DriverState × List (List Nat) × Except RelayError SendOk :=
  set_relay s relayNum true now d

/-- Source `RelayDriver.relay_off`: `set_relay(relay_num, False)`. -/
def relay_off (s : DriverState) (relayNum : Int) (now d : ℚ) :
    DriverState × List (List Nat) × Except RelayError SendOk :=
  set_relay s relayNum false now d

/-- One entry of `serial.tools.list_ports.comports()`: a device name and
a human-readable description. -/
structure PortInfo where
  device : String
  description : String
deriving DecidableEq, Repr

/-- Whether `needle` occurs at the head of `hay`. -/
def charsMatchAt : List Char → List Char → Bool
  | [], _ => true
  | _ :: _, [] => false
  | a :: as, b :: bs => a == b && charsMatchAt as bs

/-- Whether `needle` occurs anywhere in `hay` (Python's `in` on strings). -/
def charsContain (needle : List Char) : List Char → Bool
  | [] => charsMatchAt needle []
  | h :: t => charsMatchAt needle (h :: t) || charsContain needle t

/-- Python's `str.upper()` on the character list of a string. -/
def strUpperChars (s : String) : List Char :=
  s.data.map Char.toUpper

/-- The test in `_find_ch340_port`:
`'CH340' in port.description.upper() or 'USB-SERIAL' in port.description.upper()`. -/
def descMatches (desc : String) : Bool :=
  charsContain ("CH340".data) (strUpperChars desc) ||
    charsContain ("USB-SERIAL".data) (strUpperChars desc)

/-- Source `RelayDriver._find_ch340_port`: first enumerated port whose
description matches; `None` if no match. -/
def findCh340Port (ports : List PortInfo) : Option String :=
  match ports.find? (fun p => descMatches p.description) with
  | some p => some p.device
  | none => none

/-- Source `RelayDriver.connect`: no-op when a channel is already open; resolves
the port (running discovery when `self.port` is unset, raising on
discovery failure); opens the serial channel, which either succeeds
(modelled by `openFails = false`) or raises `SerialException`, re-raised
as a connection failure. -/
def connect (ports : List PortInfo) (openFails : Bool) (s : DriverState) :
    DriverState × Except RelayError Unit :=
  if connIsOpen s then (s, .ok ())
  else
    let resolved :=
      match s.port with
      | some p => some p
      | none => findCh340Port ports
    match resolved with
    | none => ({ s with port := none }, .error .deviceNotFound)
    | some p =>
      if openFails then
        ({ s with port := some p }, .error .connectionFailed)
      else
        ({ s with port := some p, conn := some { port := p, isOpen := true } }, .ok ())

/-- Source `RelayDriver.disconnect`: closes the channel when one is open and
clears `self.serial_conn`; otherwise does nothing.  The underlying
`close()` call is not wrapped in a handler, so a transport error there
(`closeFails = true`) propagates, leaving `self.serial_conn` set. -/
def disconnect (closeFails : Bool) (s : DriverState) :
    DriverState × Except RelayError Unit :=
  if connIsOpen s then
    if closeFails then (s, .error .connectionFailed)
    else ({ s with conn := none }, .ok ())
  else
    (s, .ok ())

/-- A driver freshly connected to COM3, used as a concrete state in the
witnesses below. -/
def demoDriver : DriverState :=
  { port := some ("COM3"),
    conn := some { port := "COM3", isOpen := true },
    lastCommandTime := 0 }

/-- Source `RelayDriver.all_off` body: `for i in range(1, 9): self.relay_off(i)`.
Each iteration calls `_send_command` at its own instant; `clock i` gives
the call instant and write duration of the i-th iteration.  A raised
error aborts the loop, leaving the relays already toggled. -/
def runAllOff (clock : Nat → ℚ × ℚ) :
    DriverState → List Int → Nat →
      DriverState × List (List Nat) × Except RelayError Unit
  | s, [], _ => (s, [], .ok ())
  | s, n :: rest, i =>
    match relay_off s n (clock i).1 (clock i).2 with
    | (s', fs, .ok _) =>
      let out := runAllOff clock s' rest (i + 1)
      (out.1, fs ++ out.2.1, out.2.2)
    | (s', fs, .error e) => (s', fs, .error e)

/-- Source `RelayDriver.all_off`: turn off relays 1..8 in ascending order. -/
def all_off (s : DriverState) (clock : Nat → ℚ × ℚ) :
    DriverState × List (List Nat) × Except RelayError Unit :=
  runAllOff clock s [1, 2, 3, 4, 5, 6, 7, 8] 0

/-! ### Role Controller (`relay_controller.py`) -/

/-- Source `RELAY_CHARGE = 1`. -/
def RELAY_CHARGE : Int := 1

/-- Source `RELAY_LOAD_6OHM = 2`. -/
def RELAY_LOAD_6OHM : Int := 2

/-- Source `RELAY_LOAD_20OHM = 3`. -/
def RELAY_LOAD_20OHM : Int := 3

/-- Source `RELAY_LOAD_75OHM = 4`. -/
def RELAY_LOAD_75OHM : Int := 4

/-- A Python dict from relay number to cached on/off state, as an
association list without duplicate keys. -/
abbrev StateTable := List (Int × Bool)

/-- Dict item assignment `d[k] = v`: overwrite the entry when the key is
present, append it otherwise. -/
def dictSet (dd : StateTable) (k : Int) (v : Bool) : StateTable :=
  match dd with
  | [] => [(k, v)]
  | (k', v') :: t => if k' = k then (k, v) :: t else (k', v') :: dictSet t k v

/-- Dict lookup `d[k]` (as an option). -/
def dictGet (dd : StateTable) (k : Int) : Option Bool :=
  match dd with
  | [] => none
  | (k', v') :: t => if k' = k then some v' else dictGet t k

/-- The loop in `RelayController.all_off`:
`for relay_num in self.states: self.states[relay_num] = False`. -/
def dictAllFalse (dd : StateTable) : StateTable :=
  dd.map (fun kv => (kv.1, false))

/-- Source `RelayController.__init__`: cached states of relays 1..4, all off. -/
def initStates : StateTable :=
  [(1, false), (2, false), (3, false), (4, false)]

/-- The mutable attributes of a `RelayController` with its injected
`RelayDriver`. -/
structure CtlState where
  driver : DriverState
  states : StateTable
deriving DecidableEq, Repr

/-- Source `RelayController.set_charge`: calls `set_relay(RELAY_CHARGE, state)`
on the driver, then (only when that call returned) caches the state; a
raised error leaves the cache untouched and propagates. -/
def set_charge (cs : CtlState) (st : Bool) (now d : ℚ) :
    CtlState × List (List Nat) × Except RelayError Unit :=
  match set_relay cs.driver RELAY_CHARGE st now d with
  | (ds, fs, .ok _) =>
    ({ driver := ds, states := dictSet cs.states RELAY_CHARGE st }, fs, .ok ())
  | (ds, fs, .error e) => ({ driver := ds, states := cs.states }, fs, .error e)

/-- Source `RelayController.set_load_6ohm`: as `set_charge`, for relay 2. -/
def set_load_6ohm (cs : CtlState) (st : Bool) (now d : ℚ) :
    CtlState × List (List Nat) × Except RelayError Unit :=
  match set_relay cs.driver RELAY_LOAD_6OHM st now d with
  | (ds, fs, .ok _) =>
    ({ driver := ds, states := dictSet cs.states RELAY_LOAD_6OHM st }, fs, .ok ())
  | (ds, fs, .error e) => ({ driver := ds, states := cs.states }, fs, .error e)

/-- Source `RelayController.set_load_20ohm`: as `set_charge`, for relay 3. -/
def set_load_20ohm (cs : CtlState) (st : Bool) (now d : ℚ) :
    CtlState × List (List Nat) × Except RelayError Unit :=
  match set_relay cs.driver RELAY_LOAD_20OHM st now d with
  | (ds, fs, .ok _) =>
    ({ driver := ds, states := dictSet cs.states RELAY_LOAD_20OHM st }, fs, .ok ())
  | (ds, fs, .error e) => ({ driver := ds, states := cs.states }, fs, .error e)

/-- Source `RelayController.set_load_75ohm`: as `set_charge`, for relay 4. -/
def set_load_75ohm (cs : CtlState) (st : Bool) (now d : ℚ) :
    CtlState × List (List Nat) × Except RelayError Unit :=
  match set_relay cs.driver RELAY_LOAD_75OHM st now d with
  | (ds, fs, .ok _) =>
    ({ driver := ds, states := dictSet cs.states RELAY_LOAD_75OHM st }, fs, .ok ())
  | (ds, fs, .error e) => ({ driver := ds, states := cs.states }, fs, .error e)

/-- Source `RelayController.all_off`: delegates to the driver's `all_off`; when
that returns it resets every cached entry to off; a raised error aborts
the method before the cache loop runs. -/
def ctl_all_off (cs : CtlState) (clock : Nat → ℚ × ℚ) :
    CtlState × List (List Nat) × Except RelayError Unit :=
  match all_off cs.driver clock with
  | (ds, fs, .ok _) => ({ driver := ds, states := dictAllFalse cs.states }, fs, .ok ())
  | (ds, fs, .error e) => ({ driver := ds, states := cs.states }, fs, .error e)

/-- The three `resistances.append(...)` conditionals in
`RelayController.get_total_load_resistance`, in source order
(6 Ω, 20 Ω, 75 Ω). -/
def activeResistances (c : StateTable) : List ℚ :=
  (if (dictGet c RELAY_LOAD_6OHM).getD false then [(6 : ℚ)] else []) ++
    (if (dictGet c RELAY_LOAD_20OHM).getD false then [(20 : ℚ)] else []) ++
      (if (dictGet c RELAY_LOAD_75OHM).getD false then [(75 : ℚ)] else [])

/-- Source `RelayController.get_total_load_resistance`: 0 when no load role is
cached on, else the parallel resistance `1 / sum(1/r)` (guarded by the
source's `total_inv > 0` test). -/
def get_total_load_resistance (c : StateTable) : ℚ :=
  let resistances := activeResistances c
  if resistances = [] then 0
  else
    let totalInv := (resistances.map (fun r => 1 / r)).sum
    if 0 < totalInv then 1 / totalInv else 0

/-- Source `RelayController.get_expected_current`:
`voltage / resistance` when the total load resistance is positive, 0
otherwise. -/
def get_expected_current (c : StateTable) (voltage : ℚ) : ℚ :=
  let resistance := get_total_load_resistance c
  if 0 < resistance then voltage / resistance else 0

/-- A trivial schedule of call instants for concrete runs: every driver
call happens at time 0 with an instantaneous write. -/
def demoClock : Nat → ℚ × ℚ := fun _ => (0, 0)

/-- A controller over the freshly connected demo driver. -/
def demoCtl : CtlState :=
  { driver := demoDriver, states := initStates }

/-- A controller whose driver was never connected and whose cache has
relay 1 (charge) recorded as on. -/
def demoCtlStuck : CtlState :=
  { driver := initDriver none,
    states := [(1, true), (2, false), (3, false), (4, false)] }

/-- The heap of dict objects: cell `i` holds one dict; a reference is a
cell index.  `RelayController.__init__` stores a reference to the dict
in `self.states`; `get_states` returns a reference to a fresh dict. -/
structure Heap where
  cells : List StateTable
deriving DecidableEq, Repr

/-- Dereference: the dict stored in cell `r`. -/
def heapRead (h : Heap) (r : Nat) : StateTable :=
  h.cells.getD r []

/-- In-place mutation of the dict in cell `r`. -/
def heapWrite (h : Heap) (r : Nat) (v : StateTable) : Heap :=
  ⟨h.cells.set r v⟩

/-- Allocation of a fresh dict object, returning its reference. -/
def heapAlloc (h : Heap) (v : StateTable) : Heap × Nat :=
  (⟨h.cells ++ [v]⟩, h.cells.length)

/-- Source `RelayController.get_states`: `return self.states.copy()` —
allocates a fresh dict holding the same entries as the cache and
returns a reference to the new object. -/
def get_states (h : Heap) (statesRef : Nat) : Heap × Nat :=
  heapAlloc h (heapRead h statesRef)

/-- Dict item assignment `d[k] = v` through a heap reference: mutates
the referenced dict in place. -/
def dictSetRef (h : Heap) (r : Nat) (k : Int) (v : Bool) : Heap :=
  heapWrite h r (dictSet (heapRead h r) k v)

/-- Helper bounding the checksum argument: for relay numbers up to 8 and
state bytes up to 1 the masked sum equals the sum modulo 256. -/
theorem calculateChecksum_eq_mod (n s : Nat) :
    calculateChecksum n s = (START_FLAG + n + s) % 256 := by
  have h := Nat.and_pow_two_sub_one_eq_mod (START_FLAG + n + s) 8
  simpa [calculateChecksum] using h

/-- C1: for every relay number N in [1,8] and state byte S in {0,1},
`_calculate_checksum` returns `(0xA0 + N + S) mod 256`, and the returned
value lies in [0,255]. -/
theorem checksum_spec (N S : Nat) (hN : 1 ≤ N ∧ N ≤ 8) (hS : S = 0 ∨ S = 1) :
    calculateChecksum N S = (0xA0 + N + S) % 256 ∧ calculateChecksum N S ≤ 255 := by
  refine ⟨calculateChecksum_eq_mod N S, ?_⟩
  rw [calculateChecksum_eq_mod N S]
  omega

/-- C1 witness: the checksum property evaluated at relay 3, state on. -/
theorem checksum_spec_witness :
    calculateChecksum 3 1 = (0xA0 + 3 + 1) % 256 ∧ calculateChecksum 3 1 ≤ 255 :=
  checksum_spec 3 1 (by decide) (by decide)

/-- C2: with an open channel and N in [1,8], `set_relay` writes exactly
the single 4-byte frame `[0xA0, N, S, C]` with S = 0x01 for on / 0x00
for off and C = (0xA0 + N + S) mod 256, and the call succeeds. -/
theorem set_relay_frame (s : DriverState) (N : Int) (st : Bool) (now d : ℚ)
    (h1 : 1 ≤ N) (h2 : N ≤ 8) (hopen : connIsOpen s = true) :
    (set_relay s N st now d).2.1 =
      [[0xA0, N.toNat, if st then 0x01 else 0x00,
        (0xA0 + N.toNat + (if st then 0x01 else 0x00)) % 256]] ∧
    ∃ r, (set_relay s N st now d).2.2 = Except.ok r := by
  unfold set_relay sendCommand
  rw [if_pos ⟨h1, h2⟩]
  simp only [hopen, if_true]
  refine ⟨?_, ⟨_, rfl⟩⟩
  cases st <;>
    simp [stateByte, calculateChecksum_eq_mod, START_FLAG, STATE_ON, STATE_OFF]

/-- C2 witness: turning relay 2 on from a connected driver sends
exactly `[0xA0, 0x02, 0x01, 0xA3]`. -/
theorem set_relay_frame_witness :
    (set_relay demoDriver 2 true 0 0).2.1 =
      [[0xA0, (2 : Int).toNat, if true then 0x01 else 0x00,
        (0xA0 + (2 : Int).toNat + (if true then 0x01 else 0x00)) % 256]] ∧
    ∃ r, (set_relay demoDriver 2 true 0 0).2.2 = Except.ok r :=
  set_relay_frame demoDriver 2 true 0 0 (by decide) (by decide) rfl

/-- C3: `set_relay` with a relay number outside [1,8] raises the
invalid-argument error, writes no frame, and returns the driver state
(port, channel and last-send timestamp) unchanged. -/
theorem set_relay_invalid (s : DriverState) (N : Int) (st : Bool) (now d : ℚ)
    (h : N < 1 ∨ 8 < N) :
    set_relay s N st now d = (s, [], .error .invalidArgument) := by
  unfold set_relay
  rw [if_neg (by omega)]

/-- C3 witness: relay 9 is rejected without any send. -/
theorem set_relay_invalid_witness :
    set_relay demoDriver 9 true 0 0 = (demoDriver, [], .error .invalidArgument) :=
  set_relay_invalid demoDriver 9 true 0 0 (by decide)

/-- Helper: anatomy of one successful `_send_command` call: the write
starts no earlier than `COMMAND_DELAY` after the stored last-send
timestamp, completes `d` later, the new timestamp is the completion
instant, and the channel's open state is untouched. -/
theorem sendCommand_ok (s : DriverState) (c : List Nat) (t d : ℚ)
    (s' : DriverState) (fs : List (List Nat)) (r : SendOk)
    (h : sendCommand s c t d = (s', fs, .ok r)) :
    s.lastCommandTime + COMMAND_DELAY ≤ r.writeStart ∧
    r.writeComplete = r.writeStart + d ∧
    s'.lastCommandTime = r.writeComplete ∧
    connIsOpen s' = connIsOpen s := by
  unfold sendCommand at h
  by_cases hc : connIsOpen s = true
  · rw [if_pos hc] at h
    simp only [Prod.mk.injEq, Except.ok.injEq] at h
    obtain ⟨rfl, -, rfl⟩ := h
    refine ⟨?_, rfl, rfl, rfl⟩
    dsimp only
    split
    · linarith
    · rename_i hel
      linarith [not_lt.mp hel]
  · simp [hc] at h

/-- C4: two consecutive successful sends through the same connection.
The first write starts at least `COMMAND_DELAY` (50 ms) after the stored
last-send time (the sleep covers the remainder of the floor), the
timestamp recorded by the first send is its write-completion instant,
and the second write completes at least 50 ms after the first one did,
for any call instants and any non-negative write duration. -/
theorem send_spacing (s : DriverState) (c1 c2 : List Nat) (t1 d1 t2 d2 : ℚ)
    (s1 s2 : DriverState) (fs1 fs2 : List (List Nat)) (r1 r2 : SendOk)
    (hd2 : 0 ≤ d2)
    (h1 : sendCommand s c1 t1 d1 = (s1, fs1, .ok r1))
    (h2 : sendCommand s1 c2 t2 d2 = (s2, fs2, .ok r2)) :
    s.lastCommandTime + COMMAND_DELAY ≤ r1.writeStart ∧
    r1.writeComplete = r1.writeStart + d1 ∧
    s1.lastCommandTime = r1.writeComplete ∧
    r1.writeComplete + COMMAND_DELAY ≤ r2.writeComplete := by
  obtain ⟨ha1, hb1, hc1, -⟩ := sendCommand_ok s c1 t1 d1 s1 fs1 r1 h1
  obtain ⟨ha2, hb2, -, -⟩ := sendCommand_ok s1 c2 t2 d2 s2 fs2 r2 h2
  refine ⟨ha1, hb1, hc1, ?_⟩
  have : r1.writeComplete + COMMAND_DELAY ≤ r2.writeStart := by
    rw [← hc1]; exact ha2
  linarith

/-- C4 witness: two back-to-back sends of the status-query frame from a
fresh connected driver: the second write completes 50 ms after the
first. -/
theorem send_spacing_witness :
    demoDriver.lastCommandTime + COMMAND_DELAY ≤
      (SendOk.mk (5 / 100) (5 / 100)).writeStart ∧
    (SendOk.mk (5 / 100) (5 / 100)).writeComplete =
      (SendOk.mk (5 / 100) (5 / 100)).writeStart + 0 ∧
    ({ demoDriver with lastCommandTime := 5 / 100 } : DriverState).lastCommandTime =
      (SendOk.mk (5 / 100) (5 / 100)).writeComplete ∧
    (SendOk.mk (5 / 100) (5 / 100)).writeComplete + COMMAND_DELAY ≤
      (SendOk.mk (1 / 10) (1 / 10)).writeComplete :=
  send_spacing demoDriver [0xFF] [0xFF] 0 0 (5 / 100) 0
    { demoDriver with lastCommandTime := 5 / 100 }
    { demoDriver with lastCommandTime := 1 / 10 }
    [[0xFF]] [[0xFF]] (SendOk.mk (5 / 100) (5 / 100)) (SendOk.mk (1 / 10) (1 / 10))
    le_rfl
    (by norm_num [sendCommand, demoDriver, connIsOpen, COMMAND_DELAY])
    (by norm_num [sendCommand, demoDriver, connIsOpen, COMMAND_DELAY])

/-- C7: on a fresh driver with no port specified, when no enumerated
port description matches the discovery test, `connect` raises the
device-not-found error and leaves the state unchanged (in particular no
serial channel is created); `relay_on(1)` invoked afterwards raises the
not-connected error and sends nothing. -/
theorem connect_no_device (ports : List PortInfo) (b : Bool) (s : DriverState)
    (henv : ∀ p ∈ ports, descMatches p.description = false)
    (hport : s.port = none) (hconn : s.conn = none) :
    connect ports b s = (s, .error .deviceNotFound) ∧
    ∀ now d, relay_on s 1 now d = (s, [], .error .notConnected) := by
  obtain ⟨p0, c0, t0⟩ := s
  cases hport
  cases hconn
  have hopen : connIsOpen ⟨none, none, t0⟩ = false := rfl
  have hfind : findCh340Port ports = none := by
    unfold findCh340Port
    rw [List.find?_eq_none.mpr]
    intro p hp
    simp [henv p hp]
  constructor
  · unfold connect
    rw [if_neg (by simp [hopen])]
    simp [hfind]
  · intro now d
    unfold relay_on set_relay sendCommand
    rw [if_pos (by omega), if_neg (by simp [hopen])]

/-- C7 witness: discovery over a port list holding only an Arduino
device fails, and a subsequent `relay_on(1)` reports not-connected. -/
theorem connect_no_device_witness :
    connect [{ device := "COM1", description := "Arduino Uno" }] false
        (initDriver none) =
      (initDriver none, .error .deviceNotFound) ∧
    ∀ now d, relay_on (initDriver none) 1 now d =
      (initDriver none, [], .error .notConnected) :=
  connect_no_device [{ device := "COM1", description := "Arduino Uno" }] false
    (initDriver none) (by decide) rfl rfl

/-- C8 counterexample: with an open channel whose `close()` raises, the
claim that `disconnect` never raises fails: the error propagates. -/
theorem disconnect_raises_cx :
    disconnect true demoDriver = (demoDriver, .error .connectionFailed) := rfl

/-- C8 amended: `disconnect` is idempotent and a no-op when no channel
is open; when the channel is open and the underlying `close()` succeeds
it closes the channel without raising, and running it again is a no-op;
but a transport error during `close()` is not swallowed: it propagates
to the caller. -/
theorem disconnect_amended (b : Bool) (s : DriverState) :
    (connIsOpen s = false → disconnect b s = (s, .ok ())) ∧
    (disconnect false s).2 = .ok () ∧
    connIsOpen (disconnect false s).1 = false ∧
    disconnect b (disconnect false s).1 = ((disconnect false s).1, .ok ()) ∧
    (connIsOpen s = true → b = true → disconnect b s = (s, .error .connectionFailed)) := by
  obtain ⟨p0, c0, t0⟩ := s
  rcases c0 with _ | ⟨cp, op⟩
  · cases b <;> simp [disconnect, connIsOpen]
  · cases op <;> cases b <;> simp [disconnect, connIsOpen]

/-- C8 amended witness: on a never-connected driver, `disconnect` with a
failing close is still a successful no-op. -/
theorem disconnect_amended_witness :
    disconnect true (initDriver none) = (initDriver none, .ok ()) :=
  (disconnect_amended true (initDriver none)).1 rfl

/-- C5 counterexample: with a disconnected driver, the controller's
`all_off` propagates the driver's error before the cache-reset loop
runs, so a cached on-state survives the call — refuting the claim that
every entry is false after any call to `all_off()`. -/
theorem ctl_all_off_cx :
    dictGet (ctl_all_off demoCtlStuck demoClock).1.states 1 = some true := rfl

/-- C5 amended: when the driver's `all_off` returns without error, the
controller resets every cached entry to off (idempotently — also when
all roles were already off); when the driver's `all_off` raises, the
error propagates and the cache is left unchanged. -/
theorem ctl_all_off_amended (cs : CtlState) (clock : Nat → ℚ × ℚ) :
    (∀ ds fs u, all_off cs.driver clock = (ds, fs, .ok u) →
      ctl_all_off cs clock =
        ({ driver := ds, states := dictAllFalse cs.states }, fs, .ok ()) ∧
      ∀ kv ∈ (ctl_all_off cs clock).1.states, kv.2 = false) ∧
    (∀ ds fs e, all_off cs.driver clock = (ds, fs, .error e) →
      ctl_all_off cs clock = ({ driver := ds, states := cs.states }, fs, .error e)) := by
  constructor
  · intro ds fs u h
    have he : ctl_all_off cs clock =
        ({ driver := ds, states := dictAllFalse cs.states }, fs, .ok ()) := by
      unfold ctl_all_off
      rw [h]
    refine ⟨he, ?_⟩
    rw [he]
    intro kv hkv
    simp only [dictAllFalse, List.mem_map] at hkv
    obtain ⟨a, -, rfl⟩ := hkv
    rfl
  · intro ds fs e h
    unfold ctl_all_off
    rw [h]

/-- C5 amended witness: from a connected controller, `all_off` succeeds
(eight off-frames for relays 1..8) and the whole cache is reset. -/
theorem ctl_all_off_amended_witness :
    ctl_all_off demoCtl demoClock =
      ({ driver := { demoDriver with lastCommandTime := 2 / 5 },
         states := dictAllFalse demoCtl.states },
        [[160, 1, 0, 161], [160, 2, 0, 162], [160, 3, 0, 163], [160, 4, 0, 164],
          [160, 5, 0, 165], [160, 6, 0, 166], [160, 7, 0, 167], [160, 8, 0, 168]],
        .ok ()) :=
  ((ctl_all_off_amended demoCtl demoClock).1
    { demoDriver with lastCommandTime := 2 / 5 }
    [[160, 1, 0, 161], [160, 2, 0, 162], [160, 3, 0, 163], [160, 4, 0, 164],
      [160, 5, 0, 165], [160, 6, 0, 166], [160, 7, 0, 167], [160, 8, 0, 168]]
    () (by
      norm_num [all_off, runAllOff, relay_off, set_relay, sendCommand, demoCtl,
        demoDriver, demoClock, connIsOpen, stateByte, calculateChecksum_eq_mod,
        START_FLAG, STATE_OFF, STATE_ON, COMMAND_DELAY]
      decide)).1

/-- C6: each per-role setter caches the new state for its fixed relay
number exactly when the driver's `set_relay` call succeeds; when that
call raises, the cache is unchanged and the error propagates. -/
theorem setters_cache_iff_driver_ok (cs : CtlState) (st : Bool) (now d : ℚ) :
    (∀ ds fs r, set_relay cs.driver RELAY_CHARGE st now d = (ds, fs, .ok r) →
      set_charge cs st now d =
        ({ driver := ds, states := dictSet cs.states RELAY_CHARGE st }, fs, .ok ())) ∧
    (∀ ds fs e, set_relay cs.driver RELAY_CHARGE st now d = (ds, fs, .error e) →
      set_charge cs st now d = ({ driver := ds, states := cs.states }, fs, .error e)) ∧
    (∀ ds fs r, set_relay cs.driver RELAY_LOAD_6OHM st now d = (ds, fs, .ok r) →
      set_load_6ohm cs st now d =
        ({ driver := ds, states := dictSet cs.states RELAY_LOAD_6OHM st }, fs, .ok ())) ∧
    (∀ ds fs e, set_relay cs.driver RELAY_LOAD_6OHM st now d = (ds, fs, .error e) →
      set_load_6ohm cs st now d = ({ driver := ds, states := cs.states }, fs, .error e)) ∧
    (∀ ds fs r, set_relay cs.driver RELAY_LOAD_20OHM st now d = (ds, fs, .ok r) →
      set_load_20ohm cs st now d =
        ({ driver := ds, states := dictSet cs.states RELAY_LOAD_20OHM st }, fs, .ok ())) ∧
    (∀ ds fs e, set_relay cs.driver RELAY_LOAD_20OHM st now d = (ds, fs, .error e) →
      set_load_20ohm cs st now d = ({ driver := ds, states := cs.states }, fs, .error e)) ∧
    (∀ ds fs r, set_relay cs.driver RELAY_LOAD_75OHM st now d = (ds, fs, .ok r) →
      set_load_75ohm cs st now d =
        ({ driver := ds, states := dictSet cs.states RELAY_LOAD_75OHM st }, fs, .ok ())) ∧
    (∀ ds fs e, set_relay cs.driver RELAY_LOAD_75OHM st now d = (ds, fs, .error e) →
      set_load_75ohm cs st now d = ({ driver := ds, states := cs.states }, fs, .error e)) := by
  refine ⟨?_, ?_, ?_, ?_, ?_, ?_, ?_, ?_⟩ <;>
    intro ds fs x h
  · unfold set_charge; rw [h]
  · unfold set_charge; rw [h]
  · unfold set_load_6ohm; rw [h]
  · unfold set_load_6ohm; rw [h]
  · unfold set_load_20ohm; rw [h]
  · unfold set_load_20ohm; rw [h]
  · unfold set_load_75ohm; rw [h]
  · unfold set_load_75ohm; rw [h]

/-- C6 witness: enabling charge from a connected controller succeeds,
sends `[0xA0, 0x01, 0x01, 0xA2]`, and caches relay 1 as on. -/
theorem setters_cache_iff_driver_ok_witness :
    set_charge demoCtl true 0 0 =
      ({ driver := { demoDriver with lastCommandTime := COMMAND_DELAY },
         states := dictSet demoCtl.states RELAY_CHARGE true },
        [[0xA0, 0x01, 0x01, 0xA2]], .ok ()) :=
  (setters_cache_iff_driver_ok demoCtl true 0 0).1
    { demoDriver with lastCommandTime := COMMAND_DELAY }
    [[0xA0, 0x01, 0x01, 0xA2]]
    { writeStart := COMMAND_DELAY, writeComplete := COMMAND_DELAY } (by
      norm_num [set_relay, sendCommand, demoCtl, demoDriver, connIsOpen, stateByte,
        calculateChecksum_eq_mod, START_FLAG, STATE_ON, COMMAND_DELAY, RELAY_CHARGE])

/-- C9: `get_total_load_resistance` returns 0 when none of the three
load roles is cached on; otherwise it returns the parallel resistance
`1 / sum(1/r)` over the resistances of the cached-on loads; with only
the 20 Ω load on it returns 20, and with the 6 Ω and 20 Ω loads on it
returns `1 / (1/6 + 1/20)`. -/
theorem get_total_load_resistance_spec (c : StateTable) :
    ((dictGet c RELAY_LOAD_6OHM).getD false = false →
      (dictGet c RELAY_LOAD_20OHM).getD false = false →
      (dictGet c RELAY_LOAD_75OHM).getD false = false →
      get_total_load_resistance c = 0) ∧
    (activeResistances c ≠ [] →
      get_total_load_resistance c =
        1 / ((activeResistances c).map (fun r => 1 / r)).sum) ∧
    get_total_load_resistance [(1, false), (2, false), (3, true), (4, false)] = 20 ∧
    get_total_load_resistance [(1, false), (2, true), (3, true), (4, false)] =
      1 / (1 / 6 + 1 / 20) := by
  refine ⟨?_, ?_, ?conc1, ?conc2⟩
  case conc1 =>
    norm_num [get_total_load_resistance, activeResistances, dictGet,
      RELAY_LOAD_6OHM, RELAY_LOAD_20OHM, RELAY_LOAD_75OHM]
  case conc2 =>
    norm_num [get_total_load_resistance, activeResistances, dictGet,
      RELAY_LOAD_6OHM, RELAY_LOAD_20OHM, RELAY_LOAD_75OHM]
    decide
  · intro h6 h20 h75
    simp [get_total_load_resistance, activeResistances, h6, h20, h75]
  · intro hne
    cases h6 : (dictGet c RELAY_LOAD_6OHM).getD false <;>
      cases h20 : (dictGet c RELAY_LOAD_20OHM).getD false <;>
        cases h75 : (dictGet c RELAY_LOAD_75OHM).getD false <;>
          simp_all [get_total_load_resistance, activeResistances] <;> norm_num

/-- C9 witness: the fresh cache has no load on and a total load
resistance of 0; a cache with the 6 Ω and 20 Ω loads on realizes the
parallel formula. -/
theorem get_total_load_resistance_spec_witness :
    get_total_load_resistance initStates = 0 :=
  (get_total_load_resistance_spec initStates).1 rfl rfl rfl

/-- C10: `get_states` returns a reference to a fresh copy: mutating the
returned dict leaves the controller's cache — and hence
`get_total_load_resistance` and `get_expected_current` over it —
unchanged. -/
theorem get_states_copy (h : Heap) (sref : Nat) (href : sref < h.cells.length)
    (k : Int) (v : Bool) (voltage : ℚ) :
    (get_states h sref).2 ≠ sref ∧
    heapRead (dictSetRef (get_states h sref).1 (get_states h sref).2 k v) sref =
      heapRead h sref ∧
    get_total_load_resistance
        (heapRead (dictSetRef (get_states h sref).1 (get_states h sref).2 k v) sref) =
      get_total_load_resistance (heapRead h sref) ∧
    get_expected_current
        (heapRead (dictSetRef (get_states h sref).1 (get_states h sref).2 k v) sref)
        voltage =
      get_expected_current (heapRead h sref) voltage := by
  have hne : h.cells.length ≠ sref := (Nat.ne_of_lt href).symm
  have key : heapRead (dictSetRef (get_states h sref).1 (get_states h sref).2 k v) sref =
      heapRead h sref := by
    unfold get_states heapAlloc dictSetRef heapWrite heapRead
    dsimp only
    rw [List.getD_eq_getElem?_getD, List.getD_eq_getElem?_getD,
      List.getElem?_set_ne hne, List.getElem?_append_left href]
  exact ⟨hne, key, by rw [key], by rw [key]⟩

/-- C10 witness: copying the fresh cache and switching relay 1 on in
the copy leaves the original cache and its derived metrics unchanged. -/
theorem get_states_copy_witness :
    (get_states ⟨[initStates]⟩ 0).2 ≠ 0 ∧
    heapRead (dictSetRef (get_states ⟨[initStates]⟩ 0).1 (get_states ⟨[initStates]⟩ 0).2
        1 true) 0 =
      heapRead ⟨[initStates]⟩ 0 ∧
    get_total_load_resistance
        (heapRead (dictSetRef (get_states ⟨[initStates]⟩ 0).1 (get_states ⟨[initStates]⟩ 0).2
          1 true) 0) =
      get_total_load_resistance (heapRead ⟨[initStates]⟩ 0) ∧
    get_expected_current
        (heapRead (dictSetRef (get_states ⟨[initStates]⟩ 0).1 (get_states ⟨[initStates]⟩ 0).2
          1 true) 0) 12 =
      get_expected_current (heapRead ⟨[initStates]⟩ 0) 12 :=
  get_states_copy ⟨[initStates]⟩ 0 (by decide) 1 true 12

end CH340
